import Mathlib

/-!
Shallow embedding of the interview-preparation backend
(FastAPI handlers in `app/api`, services in `app/services`,
ORM models in `app/models`), for checking the natural-language
specification against the code.

External effects (object storage, the Claude structured-output API,
the transcription service) are modelled by oracle records whose fields
hold the outcome of each external call; the handlers consume those
outcomes exactly the way the Python code consumes the calls.
Database rows are Lean structures, the database a record of row lists,
and object storage the list of stored keys.
-/

set_option maxHeartbeats 1000000

namespace Backend

/-- Status enum of `app/models/job_description.py` (`JobDescriptionStatus`). -/
inductive JobDescriptionStatus where
  | PENDING
  | QUESTIONS_GENERATED
  | ERROR
deriving DecidableEq, Repr

/-- Row of the `job_descriptions` table. -/
structure JobDescriptionRow where
  id : Nat
  user_id : Nat
  company_name : String
  job_title : String
  file_path : String
  extracted_text : String
  status : JobDescriptionStatus
  error_message : Option String
  created_at : Nat
deriving DecidableEq, Repr

/-- Row of the `questions` table. -/
structure QuestionRow where
  id : Nat
  job_description_id : Nat
  user_id : Nat
  question_text : String
deriving DecidableEq, Repr

/-- Row of the `responses` table (`app/models/response.py`): `transcript`
is `nullable=False`, hence a plain `String` here. -/
structure ResponseRow where
  id : Nat
  question_id : Nat
  user_id : Nat
  audio_path : String
  transcript : String
  created_at : Nat
deriving DecidableEq, Repr

/-- Pydantic `Scores` schema of `claude_service.py`: five integer
sub-scores, each constrained `ge=1, le=10` by the schema, so a parsed
value carries those bounds. -/
structure Scores where
  confidence : Int
  clarity_structure : Int
  technical_depth : Int
  communication_skills : Int
  relevance : Int
  confidence_bounds : 1 ≤ confidence ∧ confidence ≤ 10
  clarity_bounds : 1 ≤ clarity_structure ∧ clarity_structure ≤ 10
  technical_bounds : 1 ≤ technical_depth ∧ technical_depth ≤ 10
  communication_bounds : 1 ≤ communication_skills ∧ communication_skills ≤ 10
  relevance_bounds : 1 ≤ relevance ∧ relevance ≤ 10

/-- Pydantic `Feedback` schema of `claude_service.py`. -/
structure Feedback where
  confidence : String
  clarity_structure : String
  technical_depth : String
  communication_skills : String
  relevance : String
deriving DecidableEq, Repr

/-- Pydantic `EvaluationResult` schema of `claude_service.py`. -/
structure EvaluationResult where
  scores : Scores
  feedback : Feedback
  overall_comment : String

/-- Pydantic `QuestionsList` schema of `claude_service.py`: the field
`questions` is constrained `min_length=5, max_length=5`, so a parsed
value carries a proof that it holds exactly 5 strings. -/
structure QuestionsList where
  questions : List String
  questions_len : questions.length = 5

/-- Row of the `response_scores` table; `scores_json` stores the whole
evaluation dictionary, the five `score_*` columns its sub-scores. -/
structure ResponseScoreRow where
  id : Nat
  response_id : Nat
  scores_json : EvaluationResult
  score_confidence : Int
  score_clarity_structure : Int
  score_technical_depth : Int
  score_communication_skills : Int
  score_relevance : Int

/-- The relational store: one list of rows per table. -/
structure DB where
  job_descriptions : List JobDescriptionRow
  questions : List QuestionRow
  responses : List ResponseRow
  response_scores : List ResponseScoreRow

/-- Object storage state: the keys stored in the R2 bucket. -/
abbrev Storage := List String

/-- An `HTTPException` as raised by the handlers: status code plus detail. -/
structure HttpError where
  status : Nat
  detail : String
deriving DecidableEq, Repr

/-! ### Fresh identifiers

The Python code uses `uuid.uuid4()` (via the ORM defaults) for primary
keys, so a newly created row's id collides with no id or foreign key
already present anywhere in the database.  We model that global
uniqueness by drawing the next id strictly above every id-valued field
in the store. -/

/-- Every id-valued field appearing anywhere in the database. -/
def DB.allIds (db : DB) : List Nat :=
  db.job_descriptions.flatMap (fun jd => [jd.id, jd.user_id]) ++
  db.questions.flatMap (fun q => [q.id, q.job_description_id, q.user_id]) ++
  db.responses.flatMap (fun r => [r.id, r.question_id, r.user_id]) ++
  db.response_scores.flatMap (fun s => [s.id, s.response_id])

def listMax (l : List Nat) : Nat := l.foldr Nat.max 0

/-- The id given to the next row created, fresh for the whole store
(models `uuid.uuid4` global uniqueness). -/
def freshId (db : DB) : Nat := listMax db.allIds + 1

/-! ### Python string built-ins

The handlers and the storage service use `str.lower`, `str.endswith`,
`str.strip` and `'\n'.join`.  We embed them at the character-list
level (Lean's `String.trim` and friends are opaque to kernel
reduction, which concrete witnesses need). -/

/-- Python `str.lower()`. -/
def pyLower (s : String) : String := String.mk (s.data.map Char.toLower)

/-- Python `s.endswith(suffix)`. -/
def pyEndsWith (s suffix : String) : Bool := suffix.data.isSuffixOf s.data

/-- Python `str.strip()`: drop leading and trailing whitespace. -/
def pyStrip (s : String) : String :=
  String.mk
    ((s.data.dropWhile Char.isWhitespace).reverse.dropWhile
      Char.isWhitespace).reverse

/-- Python `'\n'.join(parts)`. -/
def pyJoinNewline (parts : List String) : String :=
  String.intercalate "\n" parts

/-! ### Storage service (`app/services/r2_storage_service.py`)

`put_object` outcomes and the pypdf page texts come from an oracle;
a page whose `extract_text()` produced nothing is the empty string,
a reader/extraction failure is `pages = none`. -/

/-- `R2StorageService.extract_pdf_text`, successful-read case: collect
each page's extracted text when truthy (`if text:`), join the parts
with a newline and strip the result. -/
def extract_pdf_text (pages : List String) : String :=
  let text_parts := pages.foldl
    (fun acc text => if text != "" then acc ++ [text] else acc) []
  pyStrip (pyJoinNewline text_parts)

/-- Modelled from the spec words of section 4.2, for refinement
comparison with `extract_pdf_text`: "concatenate extractable text of
every page, trimmed". -/
def concat_pages_spec (pages : List String) : String :=
  pyStrip (String.join pages)

/-- `R2StorageService.save_pdf`: upload the bytes under a fresh
`pdfs/`-namespaced key, then extract the text; an upload failure or an
extraction failure raises, and the returned storage reflects that the
blob is stored before extraction is attempted. -/
def save_pdf (put_pdf : Except String Unit) (pdf_name : String)
    (pages : Option (List String)) (storage : Storage) :
    Except String (String × String) × Storage :=
  let r2_key := "pdfs/" ++ pdf_name
  match put_pdf with
  | .error e => (.error ("Failed to save PDF to R2: " ++ e), storage)
  | .ok _ =>
    let storage1 := storage ++ [r2_key]
    match pages with
    | none => (.error "Failed to extract text from PDF", storage1)
    | some ps => (.ok (r2_key, extract_pdf_text ps), storage1)

/-- `R2StorageService.save_audio`: upload the bytes under a fresh
`audio/`-namespaced key. -/
def save_audio (put_audio : Except String Unit) (audio_name : String)
    (storage : Storage) : Except String String × Storage :=
  let r2_key := "audio/" ++ audio_name
  match put_audio with
  | .error e => (.error ("Failed to save audio to R2: " ++ e), storage)
  | .ok _ => (.ok r2_key, storage ++ [r2_key])

/-- Python truthiness of `settings.r2_public_url`: false for `None` and
for the empty string. -/
def strTruthy : Option String → Bool
  | none => false
  | some s => s != ""

def optStr : Option String → String
  | none => ""
  | some s => s

/-- The storage service's URL-resolution configuration: the configured
public base URL (if any) and the outcome of
`s3_client.generate_presigned_url` for a given key and expiry. -/
structure R2UrlConfig where
  public_url : Option String
  generate_presigned_url : String → Nat → Except String String

/-- `R2StorageService.get_file_url`: prefer the public base URL joined
with the key; otherwise generate a presigned URL with `ExpiresIn=3600`. -/
def get_file_url (cfg : R2UrlConfig) (r2_key : String) :
    Except String String :=
  if strTruthy cfg.public_url then
    .ok (optStr cfg.public_url ++ "/" ++ r2_key)
  else
    cfg.generate_presigned_url r2_key 3600

/-! ### Claude service (`app/services/claude_service.py`)

`client.beta.messages.parse` is an external call: its outcome is an
oracle value `Except String (Option α)` — `error e` when the API call
raises with message `e`, `ok none` when the call returns but
`parsed_output is None`, `ok (some v)` when parsing succeeded (and the
pydantic schema constraints hold of `v`). -/

/-- `ClaudeService.generate_questions`: return the parsed question
list, raising when the call failed or the parsed output is missing. -/
def generate_questions (api : Except String (Option QuestionsList)) :
    Except String (List String) :=
  match api with
  | .error e => .error e
  | .ok none => .error "Failed to parse questions from Claude response"
  | .ok (some ql) => .ok ql.questions

/-- `ClaudeService.evaluate_response`: return the parsed evaluation,
raising when the call failed or the parsed output is missing. -/
def evaluate_response (api : Except String (Option EvaluationResult)) :
    Except String EvaluationResult :=
  match api with
  | .error e => .error e
  | .ok none => .error "Failed to parse evaluation from Claude response"
  | .ok (some r) => .ok r

/-- Modelled from the spec: `whisper_service.transcribe` (the
transcription adapter, whose source file is not part of the reviewed
sources) "converts an audio blob to text synchronously; ... it either
returns a transcript string or fails".  Its outcome is therefore an
oracle value: `ok transcript` or `error message`. -/
abbrev TranscribeOutcome := Except String String

/-! ### `order_by(created_at.desc())` -/

/-- Insert into a list kept sorted by descending key. -/
def insertDesc (key : α → Nat) (x : α) : List α → List α
  | [] => [x]
  | y :: ys => if key y ≥ key x then y :: insertDesc key x ys
               else x :: y :: ys

/-- Sort by descending key (models SQL `ORDER BY ... DESC`). -/
def sortByKeyDesc (key : α → Nat) : List α → List α
  | [] => []
  | x :: xs => insertDesc key x (sortByKeyDesc key xs)

/-! ### Upload handler (`app/api/job_descriptions.py`) -/

/-- Outcome of `POST /api/job-descriptions`: a raised `HTTPException`
or a 201 with the created `JobDescription`. -/
inductive UploadResult where
  | httpError (e : HttpError)
  | created (jd : JobDescriptionRow)

/-- Outcomes of the external calls made by the upload handler. -/
structure UploadOracle where
  put_pdf : Except String Unit
  pdf_name : String
  pages : Option (List String)
  gen_api : Except String (Option QuestionsList)

/-- `upload_job_description`: validate filename and size, save the PDF
and extract its text, create the `JobDescription` row in `PENDING`,
then attempt question generation — persisting 5 questions and setting
`QUESTIONS_GENERATED` on success, or setting `ERROR` with the failure
message on failure, returning the row either way; a storage failure is
caught by the outer handler and becomes a 500 with a generic detail. -/
def upload_job_description (oracle : UploadOracle) (filename : String)
    (content_size : Nat) (company_name : String) (job_title : String)
    (uid : Nat) (now : Nat) (db : DB) (storage : Storage) :
    UploadResult × DB × Storage :=
  if !(pyEndsWith (pyLower filename) ".pdf") then
    (.httpError ⟨400, "File must be a PDF"⟩, db, storage)
  else if content_size > 10 * 1024 * 1024 then
    (.httpError ⟨400, "File size must be less than 10MB"⟩, db, storage)
  else
    match save_pdf oracle.put_pdf oracle.pdf_name oracle.pages storage with
    | (.error _, storage1) =>
      (.httpError ⟨500, "Failed to process job description"⟩, db, storage1)
    | (.ok (file_path, extracted_text), storage1) =>
      let jd0 : JobDescriptionRow :=
        { id := freshId db, user_id := uid, company_name, job_title,
          file_path, extracted_text, status := .PENDING,
          error_message := none, created_at := now }
      match generate_questions oracle.gen_api with
      | .ok questions_list =>
        let newQuestions := questions_list.enum.map (fun p =>
          { id := freshId db + 1 + p.1, job_description_id := jd0.id,
            user_id := uid, question_text := p.2 : QuestionRow })
        let jd1 := { jd0 with status := .QUESTIONS_GENERATED }
        (.created jd1,
         { db with job_descriptions := db.job_descriptions ++ [jd1],
                   questions := db.questions ++ newQuestions },
         storage1)
      | .error e =>
        let jd1 := { jd0 with status := .ERROR, error_message := some e }
        (.created jd1,
         { db with job_descriptions := db.job_descriptions ++ [jd1] },
         storage1)

/-- `GET /api/job-descriptions`: the requesting user's job
descriptions, newest first. -/
def list_job_descriptions (uid : Nat) (db : DB) : List JobDescriptionRow :=
  sortByKeyDesc (fun jd => jd.created_at)
    (db.job_descriptions.filter (fun jd => jd.user_id == uid))

/-- `GET /api/job-descriptions/{id}/questions`: 404 unless the job
description exists and belongs to the requester, then all questions
whose `job_description_id` matches the path id. -/
def get_questions (job_description_id : Nat) (uid : Nat) (db : DB) :
    Except HttpError (List QuestionRow) :=
  match db.job_descriptions.find?
      (fun jd => jd.id == job_description_id && jd.user_id == uid) with
  | none => .error ⟨404, "Job description not found"⟩
  | some _ =>
    .ok (db.questions.filter
      (fun q => q.job_description_id == job_description_id))

/-! ### Response handlers (`app/api/responses.py`) -/

/-- The 201 payload of `POST /api/questions/{id}/responses`. -/
structure SubmitPayload where
  response_id : Nat
  transcript : String
  scores : Scores
  feedback : Feedback
  overall_comment : String
  created_at : Nat

/-- Outcome of `POST /api/questions/{id}/responses`. -/
inductive SubmitResult where
  | httpError (e : HttpError)
  | created (payload : SubmitPayload)

/-- Outcomes of the external calls made by the submit handler. -/
structure SubmitOracle where
  put_audio : Except String Unit
  audio_name : String
  transcribe : TranscribeOutcome
  eval_api : Except String (Option EvaluationResult)

/-- Accessing `job_description.extracted_text` when the lookup returned
no row raises (`AttributeError` on `None`), caught by the outer
handler. -/
def jd_extracted_text : Option JobDescriptionRow → Except String String
  | none => .error "NoneType object has no attribute extracted_text"
  | some jd => .ok jd.extracted_text

/-- `submit_response`: 404 unless the question belongs to the
requester; 400 over 50 MiB; then save the audio, transcribe, persist
the `Response` row, evaluate, persist the `ResponseScore` row and
return the payload — any exception in that block becomes a 500 whose
detail appends the exception message, leaving whatever was already
committed in place. -/
def submit_response (oracle : SubmitOracle) (question_id : Nat)
    (content_size : Nat) (uid : Nat) (now : Nat) (db : DB)
    (storage : Storage) : SubmitResult × DB × Storage :=
  match db.questions.find?
      (fun q => q.id == question_id && q.user_id == uid) with
  | none => (.httpError ⟨404, "Question not found"⟩, db, storage)
  | some question =>
    let job_description := db.job_descriptions.find?
      (fun jd => jd.id == question.job_description_id)
    if content_size > 50 * 1024 * 1024 then
      (.httpError ⟨400, "Audio file size must be less than 50MB"⟩,
       db, storage)
    else
      match save_audio oracle.put_audio oracle.audio_name storage with
      | (.error e, storage1) =>
        (.httpError ⟨500, "Failed to process response: " ++ e⟩,
         db, storage1)
      | (.ok audio_path, storage1) =>
        match oracle.transcribe with
        | .error e =>
          (.httpError ⟨500, "Failed to process response: " ++ e⟩,
           db, storage1)
        | .ok transcript =>
          let response : ResponseRow :=
            { id := freshId db, question_id := question.id,
              user_id := uid, audio_path, transcript, created_at := now }
          let db1 := { db with responses := db.responses ++ [response] }
          match jd_extracted_text job_description with
          | .error e =>
            (.httpError ⟨500, "Failed to process response: " ++ e⟩,
             db1, storage1)
          | .ok _ =>
            match evaluate_response oracle.eval_api with
            | .error e =>
              (.httpError ⟨500, "Failed to process response: " ++ e⟩,
               db1, storage1)
            | .ok evaluation =>
              let response_score : ResponseScoreRow :=
                { id := freshId db1, response_id := response.id,
                  scores_json := evaluation,
                  score_confidence := evaluation.scores.confidence,
                  score_clarity_structure :=
                    evaluation.scores.clarity_structure,
                  score_technical_depth :=
                    evaluation.scores.technical_depth,
                  score_communication_skills :=
                    evaluation.scores.communication_skills,
                  score_relevance := evaluation.scores.relevance }
              let db2 := { db1 with response_scores :=
                            db1.response_scores ++ [response_score] }
              (.created
                { response_id := response.id, transcript,
                  scores := evaluation.scores,
                  feedback := evaluation.feedback,
                  overall_comment := evaluation.overall_comment,
                  created_at := now },
               db2, storage1)

/-- An item of the `GET /api/questions/{id}/responses` list view:
`response_id`, `created_at` and the sub-score mapping only. -/
structure ResponseListItem where
  response_id : Nat
  created_at : Nat
  scores : Scores

/-- The SQL inner join of `Response` with `ResponseScore` on
`Response.id == ResponseScore.response_id`, filtered to the question. -/
def joinResponses (db : DB) (question_id : Nat) :
    List (ResponseRow × ResponseScoreRow) :=
  (db.responses.filter (fun r => r.question_id == question_id)).flatMap
    (fun r => (db.response_scores.filter
        (fun s => s.response_id == r.id)).map (fun s => (r, s)))

/-- `GET /api/questions/{id}/responses`: 404 unless the question
belongs to the requester, then the joined rows newest first, projected
to id, timestamp and the `scores` mapping of the stored JSON. -/
def list_responses (question_id : Nat) (uid : Nat) (db : DB) :
    Except HttpError (List ResponseListItem) :=
  match db.questions.find?
      (fun q => q.id == question_id && q.user_id == uid) with
  | none => .error ⟨404, "Question not found"⟩
  | some _ =>
    .ok ((sortByKeyDesc (fun p => p.1.created_at)
            (joinResponses db question_id)).map
      (fun p => { response_id := p.1.id, created_at := p.1.created_at,
                  scores := p.2.scores_json.scores }))

/-! ### Helper definitions and lemmas for the claim theorems -/

/-- Number of `Question` rows attached to a given job description. -/
def DB.questionCount (db : DB) (jdid : Nat) : Nat :=
  (db.questions.filter (fun q => q.job_description_id == jdid)).length

/-- Concrete databases used by witnesses. -/
def db0 : DB := ⟨[], [], [], []⟩

/-- A concrete parsed `QuestionsList`. -/
def fiveQuestions : QuestionsList :=
  ⟨["q1", "q2", "q3", "q4", "q5"], rfl⟩

/-- A concrete upload oracle whose generation call parses 5 questions. -/
def oracleGen : UploadOracle := ⟨.ok (), "f.pdf", some ["text"], .ok (some fiveQuestions)⟩

/-- A concrete upload oracle whose generation call returns no parsed
output. -/
def oracleGenFail : UploadOracle := ⟨.ok (), "f.pdf", some ["text"], .ok none⟩

/-- Concrete rows for the submit-handler witnesses. -/
def jdRow1 : JobDescriptionRow :=
  ⟨2, 1, "Acme", "Engineer", "pdfs/f.pdf", "text",
   .QUESTIONS_GENERATED, none, 0⟩

def qRow1 : QuestionRow := ⟨1, 2, 1, "Tell me about a project"⟩

def dbQ : DB := ⟨[jdRow1], [qRow1], [], []⟩

def scores5 : Scores :=
  ⟨5, 5, 5, 5, 5, by decide, by decide, by decide, by decide, by decide⟩

def feedback1 : Feedback := ⟨"a", "b", "c", "d", "e"⟩

def evalResult1 : EvaluationResult := ⟨scores5, feedback1, "ok"⟩

def oracleTr : SubmitOracle :=
  ⟨.ok (), "a.webm", .ok "hello", .ok (some evalResult1)⟩

def oracleTrFail : SubmitOracle :=
  ⟨.ok (), "a.webm", .error "boom", .ok (some evalResult1)⟩

def oracleEmptyTranscript : SubmitOracle :=
  ⟨.ok (), "a.webm", .ok "", .ok (some evalResult1)⟩

def oracleEvalFail : SubmitOracle :=
  ⟨.ok (), "a.webm", .ok "hello", .error "claude down"⟩

/-- A concrete submit oracle whose audio upload raises "s3 down". -/
def oracleAudioFail : SubmitOracle :=
  ⟨.error "s3 down", "a.webm", .ok "hello", .ok (some evalResult1)⟩

/-- A database holding a question whose parent job description row is
missing, so the handler's `job_description` lookup yields `None`. -/
def dbNoJd : DB := ⟨[], [qRow1], [], []⟩

/-- `sub` occurs as a contiguous sublist of the first argument. -/
def listContainsSub [DecidableEq α] : List α → List α → Bool
  | _, [] => true
  | [], _ => false
  | x :: xs, sub => sub.isPrefixOf (x :: xs) || listContainsSub xs sub

/-- Python `sub in s` on strings. -/
def pyContains (s sub : String) : Bool := listContainsSub s.data sub.data

/-- A concrete upload oracle whose storage call raises "boom". -/
def oraclePutBoom : UploadOracle :=
  ⟨.error "boom", "f.pdf", some ["text"], .ok none⟩

/-- A concrete upload oracle whose storage call raises "bang". -/
def oraclePutBang : UploadOracle :=
  ⟨.error "bang", "f.pdf", some ["text"], .ok none⟩

/-- Every question's `user_id` agrees with its parent job
description's owner — the invariant the creation path maintains
(questions are inserted with `user_id=current_user.id` under a job
description created by the same user). -/
def questionsOwnershipConsistent (db : DB) : Prop :=
  ∀ q ∈ db.questions, ∀ jd ∈ db.job_descriptions,
    q.job_description_id = jd.id → q.user_id = jd.user_id

/-- Every response's `user_id` agrees with its question's owner. -/
def responsesOwnershipConsistent (db : DB) : Prop :=
  ∀ r ∈ db.responses, ∀ q ∈ db.questions,
    r.question_id = q.id → r.user_id = q.user_id

/-- A job description owned by user 1. -/
def jdRowCross : JobDescriptionRow :=
  ⟨1, 1, "Acme", "Engineer", "pdfs/x.pdf", "text", .PENDING, none, 0⟩

/-- A question attached to job description 1 but owned by user 7. -/
def qRowCross : QuestionRow := ⟨2, 1, 7, "q"⟩

def dbCross : DB := ⟨[jdRowCross], [qRowCross], [], []⟩

/-- A concrete upload oracle whose PDF upload succeeds but whose text
extraction fails. -/
def oracleExtractFail : UploadOracle := ⟨.ok (), "f.pdf", none, .ok none⟩

/-- A configuration with a public base URL. -/
def cfgPub : R2UrlConfig :=
  ⟨some "https://cdn.example.com", fun k _ => .ok ("presigned/" ++ k)⟩

/-- A configuration with no public base URL. -/
def cfgPriv : R2UrlConfig :=
  ⟨none, fun k _ => .ok ("presigned/" ++ k)⟩

/-- A scored response and an orphaned (unscored) response for the
join witness. -/
def respScored : ResponseRow := ⟨20, 1, 1, "audio/a.webm", "hi", 2⟩

def respOrphan : ResponseRow := ⟨30, 1, 1, "audio/b.webm", "yo", 3⟩

def scoreRow1 : ResponseScoreRow := ⟨40, 20, evalResult1, 5, 5, 5, 5, 5⟩

def dbJoin : DB := ⟨[jdRow1], [qRow1], [respScored, respOrphan], [scoreRow1]⟩

theorem le_listMax {n : Nat} : ∀ {l : List Nat}, n ∈ l → n ≤ listMax l := by
  intro l h
  induction l with
  | nil => cases h
  | cons x xs ih =>
    rcases List.mem_cons.mp h with h | h
    · subst h; exact Nat.le_max_left _ _
    · exact Nat.le_trans (ih h) (Nat.le_max_right _ _)

theorem mem_allIds_ne_freshId {db : DB} {n : Nat} (h : n ∈ db.allIds) :
    n ≠ freshId db := by
  have hle := le_listMax h
  intro heq
  rw [heq] at hle
  simp only [freshId] at hle
  exact Nat.not_succ_le_self (listMax db.allIds) hle

theorem question_jd_id_ne_freshId {db : DB} {q : QuestionRow}
    (h : q ∈ db.questions) : q.job_description_id ≠ freshId db := by
  apply mem_allIds_ne_freshId
  have : q.job_description_id ∈ [q.id, q.job_description_id, q.user_id] := by simp
  simp only [DB.allIds, List.mem_append, List.mem_flatMap]
  exact Or.inl (Or.inl (Or.inr ⟨q, h, this⟩))

theorem score_response_id_ne_freshId {db : DB} {s : ResponseScoreRow}
    (h : s ∈ db.response_scores) : s.response_id ≠ freshId db := by
  apply mem_allIds_ne_freshId
  have : s.response_id ∈ [s.id, s.response_id] := by simp
  simp only [DB.allIds, List.mem_append, List.mem_flatMap]
  exact Or.inr ⟨s, h, this⟩

theorem mem_insertDesc {key : α → Nat} {x a : α} :
    ∀ {l : List α}, a ∈ insertDesc key x l ↔ a = x ∨ a ∈ l := by
  intro l
  induction l with
  | nil => simp [insertDesc]
  | cons y ys ih =>
    by_cases h : key y ≥ key x
    · simp only [insertDesc, if_pos h, List.mem_cons, ih]
      tauto
    · simp only [insertDesc, if_neg h, List.mem_cons]

theorem mem_sortByKeyDesc {key : α → Nat} {a : α} :
    ∀ {l : List α}, a ∈ sortByKeyDesc key l ↔ a ∈ l := by
  intro l
  induction l with
  | nil => simp [sortByKeyDesc]
  | cons x xs ih =>
    simp only [sortByKeyDesc, mem_insertDesc, ih, List.mem_cons]

/-- No pre-existing question references the fresh job-description id. -/
theorem questionCount_freshId (db : DB) :
    db.questionCount (freshId db) = 0 := by
  simp only [DB.questionCount, List.length_eq_zero]
  apply List.filter_eq_nil_iff.mpr
  intro q hq
  simpa using question_jd_id_ne_freshId hq

/-- Counting questions after appending freshly generated rows: none of
the old rows references the new job description, every new row does. -/
theorem length_filter_append_new_questions (old : List QuestionRow)
    (jdid uid : Nat) (qs : List String)
    (hold : ∀ q ∈ old, q.job_description_id ≠ jdid) :
    ((old ++ qs.enum.map (fun p =>
        ({ id := jdid + 1 + p.1, job_description_id := jdid,
           user_id := uid, question_text := p.2 } : QuestionRow))).filter
      (fun q => q.job_description_id == jdid)).length = qs.length := by
  rw [List.filter_append, List.length_append]
  have h1 : old.filter (fun q => q.job_description_id == jdid) = [] :=
    List.filter_eq_nil_iff.mpr (fun q hq => by simpa using hold q hq)
  have h2 : (qs.enum.map (fun p =>
      ({ id := jdid + 1 + p.1, job_description_id := jdid,
         user_id := uid, question_text := p.2 } : QuestionRow))).filter
        (fun q => q.job_description_id == jdid)
      = qs.enum.map (fun p =>
      ({ id := jdid + 1 + p.1, job_description_id := jdid,
         user_id := uid, question_text := p.2 } : QuestionRow)) := by
    apply List.filter_eq_self.mpr
    intro q hq
    rcases List.mem_map.mp hq with ⟨p, _, rfl⟩
    simp
  rw [h1, h2, List.length_map, List.enum_length]
  simp

/-- The page-collecting fold of `extract_pdf_text` keeps exactly the
non-empty page texts, in order. -/
theorem foldl_collect_eq_filter (pages : List String) :
    ∀ acc, pages.foldl
        (fun acc text => if text != "" then acc ++ [text] else acc) acc
      = acc ++ pages.filter (fun t => t != "") := by
  induction pages with
  | nil => intro acc; simp
  | cons p ps ih =>
    intro acc
    simp only [List.foldl_cons, List.filter_cons]
    by_cases hp : (p != "") = true
    · rw [if_pos hp, if_pos hp, ih, List.append_assoc,
        List.singleton_append]
    · rw [if_neg hp, if_neg hp, ih]

/-! ### Claim theorems -/

/-- C1: a job-description upload whose filename does not end in `.pdf`
(case-insensitively) or whose payload exceeds 10 MiB is rejected with a
400 before any side effect: the database and the object storage are
unchanged, so no blob is stored and no `JobDescription` row is
created. -/
theorem upload_rejects_invalid_input_before_side_effects
    (oracle : UploadOracle) (filename : String) (content_size : Nat)
    (company_name job_title : String) (uid now : Nat) (db : DB)
    (storage : Storage)
    (h : pyEndsWith (pyLower filename) ".pdf" = false ∨
         content_size > 10 * 1024 * 1024) :
    ∃ d, upload_job_description oracle filename content_size company_name
        job_title uid now db storage = (.httpError ⟨400, d⟩, db, storage) := by
  by_cases hf : pyEndsWith (pyLower filename) ".pdf"
  · rcases h with h | h
    · rw [hf] at h; cases h
    · exact ⟨"File size must be less than 10MB",
        by simp [upload_job_description, hf, h]⟩
  · exact ⟨"File must be a PDF",
      by simp [upload_job_description, hf]⟩

/-- Witness for C1: a 12 MiB payload named `jd.pdf` is rejected with a
400, leaving the empty database and empty storage untouched. -/
theorem upload_rejects_invalid_input_witness :
    ∃ d, upload_job_description ⟨.ok (), "f.pdf", some [], .ok none⟩
        "jd.pdf" (12 * 1024 * 1024) "Acme" "Engineer" 1 0 db0 []
      = (.httpError ⟨400, d⟩, db0, []) :=
  upload_rejects_invalid_input_before_side_effects _ _ _ _ _ _ _ _ _
    (Or.inr (by decide))

/-- C2: after a validated upload whose storage step succeeded, question
generation success yields a created `JobDescription` in status
`QUESTIONS_GENERATED` with exactly 5 `Question` rows attached, and
generation failure yields status `ERROR` with `error_message` set and
zero `Question` rows attached. -/
theorem upload_generation_five_questions_or_error
    (oracle : UploadOracle) (filename : String) (content_size : Nat)
    (company_name job_title : String) (uid now : Nat) (db : DB)
    (storage : Storage) (ps : List String)
    (hname : pyEndsWith (pyLower filename) ".pdf" = true)
    (hsize : ¬ content_size > 10 * 1024 * 1024)
    (hput : oracle.put_pdf = .ok ())
    (hpages : oracle.pages = some ps) :
    (∀ ql, oracle.gen_api = .ok (some ql) →
      ∃ jd db1,
        upload_job_description oracle filename content_size company_name
            job_title uid now db storage
          = (.created jd, db1, storage ++ ["pdfs/" ++ oracle.pdf_name]) ∧
        jd ∈ db1.job_descriptions ∧
        jd.status = .QUESTIONS_GENERATED ∧
        db1.questionCount jd.id = 5) ∧
    (∀ e, generate_questions oracle.gen_api = .error e →
      ∃ jd db1,
        upload_job_description oracle filename content_size company_name
            job_title uid now db storage
          = (.created jd, db1, storage ++ ["pdfs/" ++ oracle.pdf_name]) ∧
        jd ∈ db1.job_descriptions ∧
        jd.status = .ERROR ∧ jd.error_message = some e ∧
        db1.questionCount jd.id = 0) := by
  constructor
  · intro ql hql
    refine ⟨{ id := freshId db, user_id := uid, company_name, job_title,
              file_path := "pdfs/" ++ oracle.pdf_name,
              extracted_text := extract_pdf_text ps,
              status := .QUESTIONS_GENERATED, error_message := none,
              created_at := now },
            { db with
              job_descriptions := db.job_descriptions ++
                [{ id := freshId db, user_id := uid, company_name,
                   job_title, file_path := "pdfs/" ++ oracle.pdf_name,
                   extracted_text := extract_pdf_text ps,
                   status := .QUESTIONS_GENERATED, error_message := none,
                   created_at := now }],
              questions := db.questions ++ ql.questions.enum.map (fun p =>
                { id := freshId db + 1 + p.1,
                  job_description_id := freshId db, user_id := uid,
                  question_text := p.2 }) },
            ?_, ?_, rfl, ?_⟩
    · simp only [upload_job_description, save_pdf, hname, hsize, hput,
        hpages, generate_questions, hql, Bool.not_true, if_neg hsize]
      rfl
    · simp
    · simp only [DB.questionCount]
      exact (length_filter_append_new_questions db.questions (freshId db)
        uid ql.questions (fun q hq => question_jd_id_ne_freshId hq)).trans
        ql.questions_len
  · intro e hgen
    refine ⟨{ id := freshId db, user_id := uid, company_name, job_title,
              file_path := "pdfs/" ++ oracle.pdf_name,
              extracted_text := extract_pdf_text ps,
              status := .ERROR, error_message := some e,
              created_at := now },
            { db with
              job_descriptions := db.job_descriptions ++
                [{ id := freshId db, user_id := uid, company_name,
                   job_title, file_path := "pdfs/" ++ oracle.pdf_name,
                   extracted_text := extract_pdf_text ps,
                   status := .ERROR, error_message := some e,
                   created_at := now }] },
            ?_, ?_, rfl, rfl, ?_⟩
    · simp only [upload_job_description, save_pdf, hname, hsize, hput,
        hpages, hgen, Bool.not_true, if_neg hsize]
      rfl
    · simp
    · simpa only [DB.questionCount] using questionCount_freshId db

/-- Witness for C2: a concrete validated upload whose generation
parses `fiveQuestions` ends `QUESTIONS_GENERATED` with 5 questions
attached. -/
theorem upload_generation_five_questions_witness :
    ∃ jd db1,
      upload_job_description oracleGen "jd.pdf" 100 "Acme" "Engineer"
          1 0 db0 []
        = (.created jd, db1, [] ++ ["pdfs/" ++ oracleGen.pdf_name]) ∧
      jd ∈ db1.job_descriptions ∧
      jd.status = .QUESTIONS_GENERATED ∧
      db1.questionCount jd.id = 5 :=
  (upload_generation_five_questions_or_error oracleGen "jd.pdf" 100
    "Acme" "Engineer" 1 0 db0 [] ["text"] (by decide) (by decide)
    rfl rfl).1 fiveQuestions rfl

/-- C3: once the PDF is stored and the `JobDescription` row created,
a question-generation failure does not fail the request: the handler
sets status `ERROR`, records the failure message in `error_message`,
and still returns the created `JobDescription` (the route's 201). -/
theorem upload_generation_failure_returns_created
    (oracle : UploadOracle) (filename : String) (content_size : Nat)
    (company_name job_title : String) (uid now : Nat) (db : DB)
    (storage : Storage) (ps : List String) (e : String)
    (hname : pyEndsWith (pyLower filename) ".pdf" = true)
    (hsize : ¬ content_size > 10 * 1024 * 1024)
    (hput : oracle.put_pdf = .ok ())
    (hpages : oracle.pages = some ps)
    (hgen : generate_questions oracle.gen_api = .error e) :
    ∃ jd db1,
      upload_job_description oracle filename content_size company_name
          job_title uid now db storage
        = (.created jd, db1, storage ++ ["pdfs/" ++ oracle.pdf_name]) ∧
      jd.status = .ERROR ∧ jd.error_message = some e ∧
      jd ∈ db1.job_descriptions := by
  refine ⟨{ id := freshId db, user_id := uid, company_name, job_title,
            file_path := "pdfs/" ++ oracle.pdf_name,
            extracted_text := extract_pdf_text ps,
            status := .ERROR, error_message := some e,
            created_at := now },
          { db with
            job_descriptions := db.job_descriptions ++
              [{ id := freshId db, user_id := uid, company_name,
                 job_title, file_path := "pdfs/" ++ oracle.pdf_name,
                 extracted_text := extract_pdf_text ps,
                 status := .ERROR, error_message := some e,
                 created_at := now }] },
          ?_, rfl, rfl, ?_⟩
  · simp only [upload_job_description, save_pdf, hname, hsize, hput,
      hpages, hgen, Bool.not_true, if_neg hsize]
    rfl
  · simp

/-- Witness for C3: a concrete validated upload whose generation call
yields no parsed output still returns a created row in status `ERROR`
with the parse-failure message recorded. -/
theorem upload_generation_failure_returns_created_witness :
    ∃ jd db1,
      upload_job_description oracleGenFail "jd.pdf" 100 "Acme" "Engineer"
          1 0 db0 []
        = (.created jd, db1, [] ++ ["pdfs/" ++ oracleGenFail.pdf_name]) ∧
      jd.status = .ERROR ∧
      jd.error_message = some "Failed to parse questions from Claude response" ∧
      jd ∈ db1.job_descriptions :=
  upload_generation_failure_returns_created oracleGenFail "jd.pdf" 100
    "Acme" "Engineer" 1 0 db0 [] ["text"]
    "Failed to parse questions from Claude response"
    (by decide) (by decide) rfl rfl rfl

/-- C4 (amended): for every accepted audio submission, transcription
success yields exactly one new `Response` row whose `transcript` is the
string the transcription service returned (a non-null value, as the
column is `nullable=False`); transcription failure aborts the request
with a 500 and leaves the `responses` table unchanged, so no `Response`
row is created.  The transcription adapter is modelled from the spec
(see `TranscribeOutcome`). -/
theorem submit_transcription_persists_or_aborts
    (oracle : SubmitOracle) (question_id content_size uid now : Nat)
    (db : DB) (storage : Storage) (q : QuestionRow)
    (hfind : db.questions.find?
        (fun qq => qq.id == question_id && qq.user_id == uid) = some q)
    (hsize : ¬ content_size > 50 * 1024 * 1024)
    (hput : oracle.put_audio = .ok ()) :
    (∀ t, oracle.transcribe = .ok t →
      ∃ r, (submit_response oracle question_id content_size uid now db
              storage).2.1.responses = db.responses ++ [r] ∧
           r.transcript = t) ∧
    (∀ e, oracle.transcribe = .error e →
      (submit_response oracle question_id content_size uid now db
          storage).1
        = .httpError ⟨500, "Failed to process response: " ++ e⟩ ∧
      (submit_response oracle question_id content_size uid now db
          storage).2.1.responses = db.responses) := by
  constructor
  · intro t htr
    simp only [submit_response, hfind, save_audio, hput, htr,
      if_neg hsize]
    cases hjd : jd_extracted_text (db.job_descriptions.find?
        (fun jd => jd.id == q.job_description_id)) with
    | error e => exact ⟨_, rfl, rfl⟩
    | ok jtext =>
      cases hev : evaluate_response oracle.eval_api with
      | error e => exact ⟨_, rfl, rfl⟩
      | ok ev => exact ⟨_, rfl, rfl⟩
  · intro e htr
    simp [submit_response, hfind, save_audio, hput, htr,
      if_neg hsize]

/-- Witness for C4 (amended): a concrete submission whose transcription
returns "hello" persists one `Response` row carrying it, and one whose
transcription raises "boom" gets a 500 and persists nothing. -/
theorem submit_transcription_persists_or_aborts_witness :
    (∃ r, (submit_response oracleTr 1 100 1 7 dbQ []).2.1.responses
          = dbQ.responses ++ [r] ∧ r.transcript = "hello") ∧
    ((submit_response oracleTrFail 1 100 1 7 dbQ []).1
        = .httpError ⟨500, "Failed to process response: " ++ "boom"⟩ ∧
      (submit_response oracleTrFail 1 100 1 7 dbQ []).2.1.responses
        = dbQ.responses) :=
  ⟨(submit_transcription_persists_or_aborts oracleTr 1 100 1 7 dbQ []
      qRow1 rfl (by decide) rfl).1 "hello" rfl,
   (submit_transcription_persists_or_aborts oracleTrFail 1 100 1 7 dbQ []
      qRow1 rfl (by decide) rfl).2 "boom" rfl⟩

/-- Counterexample for C4 as stated: a submission whose transcription
succeeds with the empty string persists a `Response` row whose
transcript is empty, so "transcription success implies a Response row
with a non-empty transcript" fails on this input. -/
theorem submit_empty_transcript_counterexample :
    ((submit_response oracleEmptyTranscript 1 100 1 7 dbQ
        []).2.1.responses.map (fun r => r.transcript)) = [""] := by
  decide

/-- C5: once the `Response` row is committed, an evaluation failure
aborts the request with a 500 but leaves that row in place with no
`ResponseScore` referencing it — the `response_scores` table is
unchanged and contains no row for the new response. -/
theorem submit_evaluation_failure_leaves_unscored_response
    (oracle : SubmitOracle) (question_id content_size uid now : Nat)
    (db : DB) (storage : Storage) (q : QuestionRow)
    (jd : JobDescriptionRow) (t e : String)
    (hfind : db.questions.find?
        (fun qq => qq.id == question_id && qq.user_id == uid) = some q)
    (hsize : ¬ content_size > 50 * 1024 * 1024)
    (hput : oracle.put_audio = .ok ())
    (htr : oracle.transcribe = .ok t)
    (hjd : db.job_descriptions.find?
        (fun j => j.id == q.job_description_id) = some jd)
    (heval : evaluate_response oracle.eval_api = .error e) :
    ∃ r,
      (submit_response oracle question_id content_size uid now db
          storage).1
        = .httpError ⟨500, "Failed to process response: " ++ e⟩ ∧
      (submit_response oracle question_id content_size uid now db
          storage).2.1.responses = db.responses ++ [r] ∧
      (submit_response oracle question_id content_size uid now db
          storage).2.1.response_scores = db.response_scores ∧
      ∀ s ∈ (submit_response oracle question_id content_size uid now db
          storage).2.1.response_scores, s.response_id ≠ r.id := by
  refine ⟨{ id := freshId db, question_id := q.id, user_id := uid,
            audio_path := "audio/" ++ oracle.audio_name,
            transcript := t, created_at := now }, ?_, ?_, ?_, ?_⟩ <;>
    simp only [submit_response, hfind, save_audio, hput, htr, hjd,
      jd_extracted_text, heval, if_neg hsize]
  intro s hs
  exact score_response_id_ne_freshId hs

/-- Witness for C5: a concrete submission whose evaluation call raises
"claude down" gets a 500, keeps its transcribed `Response` row, and has
no `ResponseScore` row. -/
theorem submit_evaluation_failure_witness :
    ∃ r,
      (submit_response oracleEvalFail 1 100 1 7 dbQ []).1
        = .httpError ⟨500, "Failed to process response: " ++ "claude down"⟩ ∧
      (submit_response oracleEvalFail 1 100 1 7 dbQ []).2.1.responses
        = dbQ.responses ++ [r] ∧
      (submit_response oracleEvalFail 1 100 1 7 dbQ
          []).2.1.response_scores = dbQ.response_scores ∧
      ∀ s ∈ (submit_response oracleEvalFail 1 100 1 7 dbQ
          []).2.1.response_scores, s.response_id ≠ r.id :=
  submit_evaluation_failure_leaves_unscored_response oracleEvalFail
    1 100 1 7 dbQ [] qRow1 jdRow1 "hello" "claude down"
    rfl (by decide) rfl rfl rfl rfl

/-- Counterexample for C6 as stated: in the upload handler a storage
adapter exception with message "boom" is translated to a 500 whose
detail is the fixed string "Failed to process job description" — the
underlying message does not occur in the detail, and an exception with
a different message "bang" produces the identical detail. -/
theorem upload_500_detail_hides_message_counterexample :
    (upload_job_description oraclePutBoom "jd.pdf" 100 "Acme" "Engineer"
        1 0 db0 []).1
      = .httpError ⟨500, "Failed to process job description"⟩ ∧
    (upload_job_description oraclePutBang "jd.pdf" 100 "Acme" "Engineer"
        1 0 db0 []).1
      = .httpError ⟨500, "Failed to process job description"⟩ ∧
    pyContains "Failed to process job description" "boom" = false := by
  refine ⟨rfl, rfl, by decide⟩

/-- C6 (amended): every adapter exception reaching the orchestration
boundary is caught and translated to a 500, in both handlers and at
every failure point that reaches the outer except.  In the upload
handler any failure of the storage step (the PDF upload or the text
extraction, i.e. any `save_pdf` error) yields the fixed detail
"Failed to process job description", independent of the underlying
message; in the response-submission handler each of the four failing
steps — audio storage, transcription, the job-description attribute
access, evaluation — yields a 500 whose detail appends the underlying
exception's message to "Failed to process response: ". -/
theorem adapter_errors_translate_to_500 :
    (∀ (oracle : UploadOracle) (filename : String) (content_size : Nat)
       (company_name job_title : String) (uid now : Nat) (db : DB)
       (storage : Storage) (e : String),
      pyEndsWith (pyLower filename) ".pdf" = true →
      ¬ content_size > 10 * 1024 * 1024 →
      (save_pdf oracle.put_pdf oracle.pdf_name oracle.pages storage).1
        = .error e →
      (upload_job_description oracle filename content_size company_name
          job_title uid now db storage).1
        = .httpError ⟨500, "Failed to process job description"⟩) ∧
    (∀ (oracle : SubmitOracle) (question_id content_size uid now : Nat)
       (db : DB) (storage : Storage) (q : QuestionRow) (e : String),
      db.questions.find?
          (fun qq => qq.id == question_id && qq.user_id == uid) = some q →
      ¬ content_size > 50 * 1024 * 1024 →
      oracle.put_audio = .error e →
      (submit_response oracle question_id content_size uid now db
          storage).1
        = .httpError ⟨500, "Failed to process response: "
            ++ ("Failed to save audio to R2: " ++ e)⟩) ∧
    (∀ (oracle : SubmitOracle) (question_id content_size uid now : Nat)
       (db : DB) (storage : Storage) (q : QuestionRow) (e : String),
      db.questions.find?
          (fun qq => qq.id == question_id && qq.user_id == uid) = some q →
      ¬ content_size > 50 * 1024 * 1024 →
      oracle.put_audio = .ok () →
      oracle.transcribe = .error e →
      (submit_response oracle question_id content_size uid now db
          storage).1
        = .httpError ⟨500, "Failed to process response: " ++ e⟩) ∧
    (∀ (oracle : SubmitOracle) (question_id content_size uid now : Nat)
       (db : DB) (storage : Storage) (q : QuestionRow) (t e : String),
      db.questions.find?
          (fun qq => qq.id == question_id && qq.user_id == uid) = some q →
      ¬ content_size > 50 * 1024 * 1024 →
      oracle.put_audio = .ok () →
      oracle.transcribe = .ok t →
      jd_extracted_text (db.job_descriptions.find?
          (fun jd => jd.id == q.job_description_id)) = .error e →
      (submit_response oracle question_id content_size uid now db
          storage).1
        = .httpError ⟨500, "Failed to process response: " ++ e⟩) ∧
    (∀ (oracle : SubmitOracle) (question_id content_size uid now : Nat)
       (db : DB) (storage : Storage) (q : QuestionRow)
       (t jtext e : String),
      db.questions.find?
          (fun qq => qq.id == question_id && qq.user_id == uid) = some q →
      ¬ content_size > 50 * 1024 * 1024 →
      oracle.put_audio = .ok () →
      oracle.transcribe = .ok t →
      jd_extracted_text (db.job_descriptions.find?
          (fun jd => jd.id == q.job_description_id)) = .ok jtext →
      evaluate_response oracle.eval_api = .error e →
      (submit_response oracle question_id content_size uid now db
          storage).1
        = .httpError ⟨500, "Failed to process response: " ++ e⟩) := by
  refine ⟨?_, ?_, ?_, ?_, ?_⟩
  · intro oracle filename content_size company_name job_title uid now db
      storage e hname hsize hfail
    cases hput : oracle.put_pdf with
    | error e0 =>
      simp [upload_job_description, save_pdf, hname, hput, if_neg hsize]
    | ok u =>
      cases u
      cases hpages : oracle.pages with
      | none =>
        simp [upload_job_description, save_pdf, hname, hput, hpages,
          if_neg hsize]
      | some ps =>
        rw [save_pdf.eq_def, hput, hpages] at hfail
        simp at hfail
  · intro oracle question_id content_size uid now db storage q e hfind
      hsize hput
    simp [submit_response, hfind, save_audio, hput, if_neg hsize]
  · intro oracle question_id content_size uid now db storage q e hfind
      hsize hput htr
    simp [submit_response, hfind, save_audio, hput, htr, if_neg hsize]
  · intro oracle question_id content_size uid now db storage q t e hfind
      hsize hput htr hjdfail
    simp [submit_response, hfind, save_audio, hput, htr, hjdfail,
      if_neg hsize]
  · intro oracle question_id content_size uid now db storage q t jtext e
      hfind hsize hput htr hjd heval
    simp [submit_response, hfind, save_audio, hput, htr, hjd, heval,
      if_neg hsize]

/-- Witness for C6 (amended): concrete adapter failures at every
covered failure point — text extraction in the upload handler; audio
storage, transcription, the missing-parent attribute access and
evaluation in the submit handler — produce the stated 500 details. -/
theorem adapter_errors_translate_to_500_witness :
    (upload_job_description oracleExtractFail "jd.pdf" 100 "Acme"
        "Engineer" 1 0 db0 []).1
      = .httpError ⟨500, "Failed to process job description"⟩ ∧
    (submit_response oracleAudioFail 1 100 1 7 dbQ []).1
      = .httpError ⟨500, "Failed to process response: "
          ++ ("Failed to save audio to R2: " ++ "s3 down")⟩ ∧
    (submit_response oracleTrFail 1 100 1 7 dbQ []).1
      = .httpError ⟨500, "Failed to process response: " ++ "boom"⟩ ∧
    (submit_response oracleTr 1 100 1 7 dbNoJd []).1
      = .httpError ⟨500, "Failed to process response: "
          ++ "NoneType object has no attribute extracted_text"⟩ ∧
    (submit_response oracleEvalFail 1 100 1 7 dbQ []).1
      = .httpError ⟨500, "Failed to process response: " ++ "claude down"⟩ :=
  ⟨adapter_errors_translate_to_500.1 oracleExtractFail "jd.pdf" 100
      "Acme" "Engineer" 1 0 db0 [] "Failed to extract text from PDF"
      (by decide) (by decide) rfl,
   adapter_errors_translate_to_500.2.1 oracleAudioFail 1 100 1 7 dbQ []
      qRow1 "s3 down" rfl (by decide) rfl,
   adapter_errors_translate_to_500.2.2.1 oracleTrFail 1 100 1 7 dbQ []
      qRow1 "boom" rfl (by decide) rfl rfl,
   adapter_errors_translate_to_500.2.2.2.1 oracleTr 1 100 1 7 dbNoJd []
      qRow1 "hello" "NoneType object has no attribute extracted_text"
      rfl (by decide) rfl rfl rfl,
   adapter_errors_translate_to_500.2.2.2.2 oracleEvalFail 1 100 1 7 dbQ
      [] qRow1 "hello" "text" "claude down"
      rfl (by decide) rfl rfl rfl rfl⟩

/-- C7 (amended): in every database state where child rows agree with
their parents on ownership, the three listing endpoints return only
entities owned by the requesting user: listed job descriptions carry
`user_id = uid`, listed questions carry `user_id = uid`, and every
listed response item stems from a `Response` row with
`user_id = uid`. -/
theorem listing_endpoints_ownership_isolation
    (db : DB) (uid job_description_id question_id : Nat)
    (hqc : questionsOwnershipConsistent db)
    (hrc : responsesOwnershipConsistent db) :
    (∀ jd ∈ list_job_descriptions uid db, jd.user_id = uid) ∧
    (∀ l, get_questions job_description_id uid db = .ok l →
      ∀ q ∈ l, q.user_id = uid) ∧
    (∀ l, list_responses question_id uid db = .ok l →
      ∀ item ∈ l, ∃ r ∈ db.responses,
        r.id = item.response_id ∧ r.user_id = uid) := by
  refine ⟨?_, ?_, ?_⟩
  · intro jd hjd
    have hmem := mem_sortByKeyDesc.mp hjd
    have hpred := (List.mem_filter.mp hmem).2
    simpa using hpred
  · intro l hl q hq
    cases hfind : db.job_descriptions.find?
        (fun jd => jd.id == job_description_id && jd.user_id == uid) with
    | none => simp [get_questions, hfind] at hl
    | some jdRow =>
      have hmem := List.mem_of_find?_eq_some hfind
      have hpred := List.find?_some hfind
      rw [Bool.and_eq_true, beq_iff_eq, beq_iff_eq] at hpred
      simp only [get_questions, hfind, Except.ok.injEq] at hl
      subst hl
      have hq' := List.mem_filter.mp hq
      have hqid : q.job_description_id = job_description_id := by
        simpa using hq'.2
      rw [← hpred.2]
      exact hqc q hq'.1 jdRow hmem (by rw [hqid, hpred.1])
  · intro l hl item hitem
    cases hfind : db.questions.find?
        (fun q => q.id == question_id && q.user_id == uid) with
    | none => simp [list_responses, hfind] at hl
    | some qRow =>
      have hqmem := List.mem_of_find?_eq_some hfind
      have hqpred := List.find?_some hfind
      rw [Bool.and_eq_true, beq_iff_eq, beq_iff_eq] at hqpred
      simp only [list_responses, hfind, Except.ok.injEq] at hl
      subst hl
      rcases List.mem_map.mp hitem with ⟨pair, hpair, rfl⟩
      have hpair' := mem_sortByKeyDesc.mp hpair
      rcases List.mem_flatMap.mp hpair' with ⟨r, hrf, hmap⟩
      rcases List.mem_map.mp hmap with ⟨s, _, rfl⟩
      have hr' := List.mem_filter.mp hrf
      have hrq : r.question_id = question_id := by simpa using hr'.2
      refine ⟨r, hr'.1, rfl, ?_⟩
      rw [← hqpred.2]
      exact hrc r hr'.1 qRow hqmem (by rw [hrq, hqpred.1])

/-- Counterexample for C7 as stated: over an arbitrary database state
the questions listing filters only by `job_description_id`, so user 1
receives a question whose `user_id` is 7 — an entity owned by a
different user appears in a listing result. -/
theorem get_questions_cross_user_counterexample :
    get_questions 1 1 dbCross = .ok [qRowCross] ∧ qRowCross.user_id ≠ 1 :=
  ⟨rfl, by decide⟩

/-- Witness for C7 (amended): on a concrete ownership-consistent
database the three listings only yield user-owned entities. -/
theorem listing_endpoints_ownership_isolation_witness :
    (∀ jd ∈ list_job_descriptions 1 dbQ, jd.user_id = 1) ∧
    (∀ l, get_questions 2 1 dbQ = .ok l → ∀ q ∈ l, q.user_id = 1) ∧
    (∀ l, list_responses 1 1 dbQ = .ok l →
      ∀ item ∈ l, ∃ r ∈ dbQ.responses,
        r.id = item.response_id ∧ r.user_id = 1) :=
  listing_endpoints_ownership_isolation dbQ 1 2 1
    (by unfold questionsOwnershipConsistent; decide)
    (by unfold responsesOwnershipConsistent; decide)

/-- C8 (amended): text extraction returns the newline-joined
extractable text of the pages, stripped, with pages yielding no text
skipped (contributing nothing, raising nothing, since the function is
total on read pages); an extraction failure is a hard failure of the
whole save operation — the upload request turns into a 500 and no
`JobDescription` row is created (the database is unchanged; the
already-uploaded blob remains in storage). -/
theorem pdf_extraction_newline_join_and_hard_failure :
    (∀ pages, extract_pdf_text pages
      = pyStrip (pyJoinNewline (pages.filter (fun t => t != "")))) ∧
    (∀ (oracle : UploadOracle) (filename : String) (content_size : Nat)
       (company_name job_title : String) (uid now : Nat) (db : DB)
       (storage : Storage),
      pyEndsWith (pyLower filename) ".pdf" = true →
      ¬ content_size > 10 * 1024 * 1024 →
      oracle.put_pdf = .ok () →
      oracle.pages = none →
      upload_job_description oracle filename content_size company_name
          job_title uid now db storage
        = (.httpError ⟨500, "Failed to process job description"⟩, db,
           storage ++ ["pdfs/" ++ oracle.pdf_name])) := by
  constructor
  · intro pages
    unfold extract_pdf_text
    rw [foldl_collect_eq_filter pages [], List.nil_append]
  · intro oracle filename content_size company_name job_title uid now db
      storage hname hsize hput hpages
    simp [upload_job_description, save_pdf, hname, hput, hpages,
      if_neg hsize]

/-- Counterexample for C8 as stated: on a two-page PDF whose pages
yield "A" and "B" the code returns the newline-joined "A\nB", not the
plain concatenation "AB" the claim's wording describes. -/
theorem extract_not_plain_concatenation_counterexample :
    extract_pdf_text ["A", "B"] = "A\nB" ∧
    concat_pages_spec ["A", "B"] = "AB" ∧
    extract_pdf_text ["A", "B"] ≠ concat_pages_spec ["A", "B"] := by
  decide

/-- Witness for C8 (amended): a concrete three-page read with one
empty page, and a concrete upload whose extraction fails turning into
a 500 with no row created. -/
theorem pdf_extraction_newline_join_witness :
    extract_pdf_text [" A ", "", "B"]
      = pyStrip (pyJoinNewline (([" A ", "", "B"]).filter
          (fun t => t != ""))) ∧
    upload_job_description oracleExtractFail "jd.pdf" 100 "Acme"
        "Engineer" 1 0 db0 []
      = (.httpError ⟨500, "Failed to process job description"⟩, db0,
         [] ++ ["pdfs/" ++ oracleExtractFail.pdf_name]) :=
  ⟨pdf_extraction_newline_join_and_hard_failure.1 [" A ", "", "B"],
   pdf_extraction_newline_join_and_hard_failure.2 oracleExtractFail
     "jd.pdf" 100 "Acme" "Engineer" 1 0 db0 [] (by decide) (by decide)
     rfl rfl⟩

/-- C9: URL resolution returns the configured public base URL joined
with the key whenever a (truthy) public base URL is configured, and
otherwise the presigned URL generated with `ExpiresIn = 3600` seconds
(1 hour). -/
theorem get_file_url_public_or_presigned (cfg : R2UrlConfig)
    (r2_key : String) :
    (strTruthy cfg.public_url = true →
      get_file_url cfg r2_key
        = .ok (optStr cfg.public_url ++ "/" ++ r2_key)) ∧
    (strTruthy cfg.public_url = false →
      get_file_url cfg r2_key
        = cfg.generate_presigned_url r2_key 3600) := by
  constructor <;> intro h <;> simp [get_file_url, h]

/-- Witness for C9: both configurations resolved at a concrete key. -/
theorem get_file_url_public_or_presigned_witness :
    get_file_url cfgPub "pdfs/a.pdf"
      = .ok (optStr cfgPub.public_url ++ "/" ++ "pdfs/a.pdf") ∧
    get_file_url cfgPriv "pdfs/a.pdf"
      = cfgPriv.generate_presigned_url "pdfs/a.pdf" 3600 :=
  ⟨(get_file_url_public_or_presigned cfgPub "pdfs/a.pdf").1 rfl,
   (get_file_url_public_or_presigned cfgPriv "pdfs/a.pdf").2 rfl⟩

/-- C10: the response listing inner-joins `Response` with
`ResponseScore`, so every returned item has a matching score row, and
a `Response` row with no `ResponseScore` (such as one orphaned by an
evaluation failure) is silently omitted from the returned list. -/
theorem list_responses_inner_join_omits_unscored
    (db : DB) (question_id uid : Nat) (q : QuestionRow)
    (l : List ResponseListItem)
    (hfind : db.questions.find?
        (fun qq => qq.id == question_id && qq.user_id == uid) = some q)
    (hl : list_responses question_id uid db = .ok l) :
    (∀ item ∈ l, ∃ s ∈ db.response_scores,
      s.response_id = item.response_id) ∧
    (∀ r ∈ db.responses,
      (∀ s ∈ db.response_scores, s.response_id ≠ r.id) →
      ∀ item ∈ l, item.response_id ≠ r.id) := by
  simp only [list_responses, hfind, Except.ok.injEq] at hl
  subst hl
  constructor
  · intro item hitem
    rcases List.mem_map.mp hitem with ⟨pair, hpair, rfl⟩
    have hpair' := mem_sortByKeyDesc.mp hpair
    rcases List.mem_flatMap.mp hpair' with ⟨r, _, hmap⟩
    rcases List.mem_map.mp hmap with ⟨s, hs, rfl⟩
    have hs' := List.mem_filter.mp hs
    exact ⟨s, hs'.1, by simpa using hs'.2⟩
  · intro r0 _ horphan item hitem heq
    rcases List.mem_map.mp hitem with ⟨pair, hpair, rfl⟩
    have hpair' := mem_sortByKeyDesc.mp hpair
    rcases List.mem_flatMap.mp hpair' with ⟨r, _, hmap⟩
    rcases List.mem_map.mp hmap with ⟨s, hs, rfl⟩
    have hs' := List.mem_filter.mp hs
    have hsr : s.response_id = r.id := by simpa using hs'.2
    exact horphan s hs'.1 (hsr.trans heq)

/-- Witness for C10: on a concrete database holding one scored and one
orphaned response, the listed items all have score rows and the
orphaned response's id never appears. -/
theorem list_responses_inner_join_omits_unscored_witness :
    (∀ item ∈ [({ response_id := 20, created_at := 2,
                  scores := scores5 } : ResponseListItem)],
      ∃ s ∈ dbJoin.response_scores, s.response_id = item.response_id) ∧
    (∀ r ∈ dbJoin.responses,
      (∀ s ∈ dbJoin.response_scores, s.response_id ≠ r.id) →
      ∀ item ∈ [({ response_id := 20, created_at := 2,
                   scores := scores5 } : ResponseListItem)],
        item.response_id ≠ r.id) :=
  list_responses_inner_join_omits_unscored dbJoin 1 1 qRow1
    [{ response_id := 20, created_at := 2, scores := scores5 }] rfl rfl

end Backend
